import Mathlib

/-!
Shallow embedding of the `compas_view2` viewer app core
(`src/compas_view2/app/app.py`) for checking the natural-language
specification against the code.

The repository sources provided contain the `App` class and a demo script.
Collaborator classes (`Object`, `Selector`, `View120`/`View330`) are not in
the provided sources; where a claim depends on their behaviour, the
corresponding definition is modelled from the spec and marked as such in its
doc comment.  Everything else is translated directly from `app.py`.
-/

set_option autoImplicit false

namespace CompasView2

/-- A geometric input value.  Per the spec (§3), geometric data is opaque to
the core beyond its variant tag and numeric payload; an `unsupported` tag
stands for any variant the geometry adapter cannot convert. -/
inductive GeometricData where
  | polygon (points : List (Int × Int × Int))
  | capsule (axis : List (Int × Int × Int)) (radius : Int)
  | mesh (payload : Nat)
  | pointcloud (payload : Nat)
  | unsupported (tag : String)
deriving DecidableEq, Repr

/-- Whether the geometry adapter supports this variant tag. -/
def GeometricData.supported : GeometricData → Bool
  | .unsupported _ => false
  | _ => true

/-- A value passed as a display option (kwargs of `App.add`). -/
inductive OptValue where
  | rgb (r g b : Nat)
  | boolean (b : Bool)
  | number (n : Nat)
deriving DecidableEq, Repr

/-- The option keys recognized by the geometry adapter, per spec §4.1:
`color/linecolor/facecolor`, `show_vertices/show_edges/show_faces`,
`opacity`, `selected`. -/
def recognizedOptions : List String :=
  ["color", "linecolor", "facecolor", "show_vertices", "show_edges",
   "show_faces", "opacity", "selected"]

/-- Errors raised while building a renderable wrapper (spec §7 taxonomy). -/
inductive BuildError where
  | unsupportedGeometryKind
  | invalidOption
deriving DecidableEq, Repr

/-- A renderable wrapper object.  `oid` is the process-unique identity
(Python `id(object)`: every constructed instance is distinct); `initialized`
is the GPU-initialized flag. -/
structure Object where
  oid : Nat
  data : GeometricData
  options : List (String × OptValue)
  initialized : Bool
deriving DecidableEq, Repr

/-- Modelled from the spec: `GeometryAdapter.build` (§4.1).  The `Object`
class is not in the provided sources; per the spec, building fails with
`UnsupportedGeometryKind` for an unsupported variant and with
`InvalidOption` for an unrecognized option key, and performs no GPU work
(the object starts uninitialized).  `nid` is the fresh identity the new
instance receives. -/
def Object.build (nid : Nat) (data : GeometricData)
    (kwargs : List (String × OptValue)) : Except BuildError Object :=
  if data.supported = false then
    .error .unsupportedGeometryKind
  else if kwargs.all (fun kv => recognizedOptions.contains kv.1) then
    .ok { oid := nid, data := data, options := kwargs, initialized := false }
  else
    .error .invalidOption

/-- The two GLSL/profile choices (`app.py` line 23:
`VERSIONS = {'120': (2, 1), '330': (3, 3)}`). -/
def VERSIONS : List (String × (Nat × Nat)) := [("120", (2, 1)), ("330", (3, 3))]

/-- Qt surface profile selected by `App.__init__`. -/
inductive Profile where
  | compatibility
  | core
deriving DecidableEq, Repr

/-- Which view backend class `App.__init__` picks. -/
inductive ViewClass where
  | view120
  | view330
deriving DecidableEq, Repr

/-- The startup choice made once by `App.__init__`: surface version,
surface profile, and view backend class. -/
structure AppConstruction where
  surfaceVersion : Nat × Nat
  profile : Profile
  viewClass : ViewClass
deriving DecidableEq, Repr

/-- State of the view widget: the object registry (`self.view.objects`, a
dict keyed by the wrapper instance itself, hence insertion-ordered and
identity-keyed, modelled as a list of distinct-identity objects) and
whether the rendering context is valid (`self.view.isValid()`). -/
structure ViewState where
  objects : List Object
  contextValid : Bool
deriving DecidableEq, Repr

/-- State of the selector: the identities registered with it
(`self.selector.add(obj)`) and the currently selected identities. -/
structure SelectorState where
  entries : List Nat
  selected : List Nat
deriving DecidableEq, Repr

/-- The mutable state of an `App` that the modelled operations touch,
together with the startup construction choice and the counter supplying
fresh identities. -/
structure AppState where
  construction : AppConstruction
  view : ViewState
  selector : SelectorState
  nextId : Nat
deriving DecidableEq, Repr

/-- `App.add` (`app.py` lines 191-196), with Python's exception flow made
explicit: `obj = Object.build(data, **kwargs)` is the first statement, so a
build failure propagates before any mutation of `self`; on success the
object is inserted into `self.view.objects` and `self.selector`, and
`obj.init()` runs if and only if `self.view.isValid()`.  The method body has
no `return` statement, so the call returns Python `None`, modelled as
`Option.none` in the result position. -/
def App.add (s : AppState) (data : GeometricData)
    (kwargs : List (String × OptValue)) :
    AppState × Except BuildError (Option Nat) :=
  match Object.build s.nextId data kwargs with
  | .error e => (s, .error e)
  | .ok obj =>
      let obj' := { obj with initialized := s.view.contextValid }
      ({ s with
          view := { s.view with objects := s.view.objects ++ [obj'] },
          selector := { s.selector with entries := s.selector.entries ++ [obj.oid] },
          nextId := s.nextId + 1 },
        .ok none)

/-- Modelled from the spec: the per-frame draw cycle (§4.3) — any object not
yet GPU-initialized is initialized under the active backend during the
frame, and after the frame the rendering context is valid.  The `View`
classes are not in the provided sources. -/
def View.drawFrame (s : AppState) : AppState :=
  { s with
      view := { contextValid := true,
                objects := s.view.objects.map (fun o => { o with initialized := true }) } }

/-- Observable side effects of `App.__init__` after the version check, in the
order the source performs them (`app.py` lines 142-181). -/
inductive InitEvent where
  | surfaceFormatSet
  | windowCreated
  | viewCreated (vc : ViewClass)
  | controllerCreated
  | selectorCreated
  | statusbarCreated
  | configLoaded
  | windowResized (width height : Nat)
deriving DecidableEq, Repr

/-- The event sequence of a successful construction with backend `vc`. -/
def constructionEvents (vc : ViewClass) (width height : Nat) : List InitEvent :=
  [.surfaceFormatSet, .windowCreated, .viewCreated vc, .controllerCreated,
   .selectorCreated, .statusbarCreated, .configLoaded,
   .windowResized width height]

/-- `App.__init__` (`app.py` lines 138-181) up to its construction choice:
the version check is the first statement (`if version not in VERSIONS:
raise Exception(...)`), so an unsupported version raises before any surface
format, window, view or context work happens (empty event list).  Otherwise
the surface version comes from `VERSIONS[version]` and the branch on
`'330'`/`'120'` picks the profile and view class; the trailing `else: raise
NotImplementedError` is kept as in the source. -/
def App.init (version : String) (width height : Nat) :
    List InitEvent × Except String AppConstruction :=
  match VERSIONS.lookup version with
  | none => ([], .error "Only these versions are currently supported")
  | some sv =>
      if version = "330" then
        (constructionEvents .view330 width height,
         .ok { surfaceVersion := sv, profile := .core, viewClass := .view330 })
      else if version = "120" then
        (constructionEvents .view120 width height,
         .ok { surfaceVersion := sv, profile := .compatibility, viewClass := .view120 })
      else ([], .error "NotImplementedError")

/-- The app state right after a successful construction: empty registry,
empty selector, no valid rendering context yet, identity counter at 0. -/
def App.mkState (c : AppConstruction) : AppState :=
  { construction := c,
    view := { objects := [], contextValid := false },
    selector := { entries := [], selected := [] },
    nextId := 0 }

/-- Folding `App.add` over a list of inputs (scripted use: several `add`
calls in sequence), keeping only the state. -/
def App.addAll (s : AppState) (inputs : List (GeometricData × List (String × OptValue))) :
    AppState :=
  inputs.foldl (fun t i => (App.add t i.1 i.2).1) s

/-- The identities in the registry, in insertion order. -/
def registryIds (s : AppState) : List Nat := s.view.objects.map Object.oid

/-- A configured radio-group child, as read by the `'radio'` branch of
`App.add_menubar_items` and by `App.add_action`: `item['text']`,
`item['action']`, `item['checked']`, optional `item['icon']`. -/
structure RadioChild where
  text : String
  actionName : String
  checked : Bool
  icon : Option String
deriving DecidableEq, Repr

/-- A configured plain action item, as read by `App.add_action`. -/
structure ActionItem where
  text : String
  actionName : String
  icon : Option String
deriving DecidableEq, Repr

/-- A menubar configuration item (`item['type']` in
`App.add_menubar_items`): one of `separator`, `menu` (with optional nested
items), `radio` (with children), `action`, or any other type string. -/
inductive MenuItem where
  | separator
  | menu (text : String) (sub : Option (List MenuItem))
  | radio (children : List RadioChild)
  | action (item : ActionItem)
  | other (tag : String)
deriving Repr

/-- Observable UI effects of processing menubar configuration items. -/
inductive MenuEffect where
  | addedSeparator
  | addedMenu (text : String)
  | radioGroupCreated (exclusive : Bool)
  | boundAction (text actionName : String) (checkable checked : Bool)
deriving DecidableEq, Repr

/-- Effect of `App.add_action` (`app.py` lines 262-270) on one item: looks
up `item['action']` on the controller and binds a (non-checkable) menu
action. -/
def addActionEffect (text actionName : String) : MenuEffect :=
  .boundAction text actionName false false

/-- `App.add_menubar_items` (`app.py` lines 229-249): separators are added
as separators; a `menu` item opens a submenu and recurses into `item['items']`
when present; a `radio` item creates an exclusive `QActionGroup` and adds
each child as a checkable action with its configured checked state; an
`action` item is bound via `add_action`; any other type raises
`NotImplementedError`. -/
def addMenubarItems : List MenuItem → Except String (List MenuEffect)
  | [] => .ok []
  | .separator :: rest => do
      let es ← addMenubarItems rest
      return .addedSeparator :: es
  | .menu t none :: rest => do
      let es ← addMenubarItems rest
      return .addedMenu t :: es
  | .menu t (some sub) :: rest => do
      let subEs ← addMenubarItems sub
      let es ← addMenubarItems rest
      return .addedMenu t :: (subEs ++ es)
  | .radio children :: rest => do
      let es ← addMenubarItems rest
      return .radioGroupCreated true ::
        (children.map (fun c => MenuEffect.boundAction c.text c.actionName true c.checked) ++ es)
  | .action a :: rest => do
      let es ← addMenubarItems rest
      return addActionEffect a.text a.actionName :: es
  | .other _ :: _ => .error "NotImplementedError"

/-- Whether a configuration tree contains an item whose type is outside
`{separator, menu, radio, action}`. -/
def hasUnknownItem : List MenuItem → Bool
  | [] => false
  | .menu _ (some sub) :: rest => hasUnknownItem sub || hasUnknownItem rest
  | .other _ :: _ => true
  | _ :: rest => hasUnknownItem rest

/-- `App.init_menubar` (`app.py` lines 211-217): `if not items: return` —
a missing (`None`) or empty configuration section creates no menubar and is
not an error; otherwise the menubar is created and the items processed.
The `Bool` records whether a menubar was created. -/
def initMenubar (items : Option (List MenuItem)) :
    Except String (Bool × List MenuEffect) :=
  match items with
  | none => .ok (false, [])
  | some [] => .ok (false, [])
  | some its => (addMenubarItems its).map (fun es => (true, es))

/-- The attribute names defined on `App` instances: those assigned in
`__init__` (`app.py` lines 162-181; `menubar` and `statusbar` via the init
helpers) plus the methods of the class body.  Neither `undo` nor `redo`
appears anywhere in the class. -/
def appAttributes : List String :=
  ["width", "height", "window", "view", "controller", "_app", "selector",
   "statusbar", "menubar", "resize", "add", "show", "init_statusbar",
   "init_menubar", "init_toolbar", "add_menubar_items", "add_toolbar_items",
   "add_action"]

/-- Python attribute access `getattr(app, name)`: succeeds exactly when the
name is defined on the instance or its class, else raises `AttributeError`. -/
def getattrApp (name : String) : Except String Unit :=
  if appAttributes.contains name then .ok () else .error "AttributeError"

/-- A toolbar configuration item; `init_toolbar` never reads its contents,
so it is opaque here. -/
structure ToolbarItem where
  payload : String
deriving DecidableEq, Repr

/-- What `init_toolbar` builds on its success path. -/
structure ToolbarBuild where
  created : Bool
  actions : List String
deriving DecidableEq, Repr

/-- `App.init_toolbar` (`app.py` lines 219-227): `if not items: return`,
and otherwise — without inspecting `items` further — a toolbar is created
and two actions are added, `'Undo'` bound to `self.undo` and `'Redo'` bound
to `self.redo`; each binding evaluates the attribute before Qt's `addAction`
is reached, so the attribute lookup happens first. -/
def initToolbar (items : Option (List ToolbarItem)) : Except String ToolbarBuild :=
  match items with
  | none => .ok { created := false, actions := [] }
  | some [] => .ok { created := false, actions := [] }
  | some _ => do
      let _ ← getattrApp "undo"
      let _ ← getattrApp "redo"
      return { created := true, actions := ["Undo", "Redo"] }

/-- A scene object as the picking query sees it: its identity, whether it is
visible, the pixels its projection covers, and its depth from the camera at
that pixel (smaller is nearer). -/
structure SceneObject where
  oid : Nat
  visible : Bool
  coveredPixels : List (Nat × Nat)
  depth : Nat
deriving DecidableEq, Repr

/-- Whether a visible object covers pixel `(x, y)`. -/
def SceneObject.hits (o : SceneObject) (x y : Nat) : Bool :=
  o.visible && o.coveredPixels.contains (x, y)

/-- Keep the nearer (smaller-depth) of two candidates, preferring the
earlier one on ties. -/
def nearer (a b : SceneObject) : SceneObject :=
  if b.depth < a.depth then b else a

/-- The nearest-to-camera object of a candidate list, `none` when empty. -/
def nearest : List SceneObject → Option SceneObject
  | [] => none
  | o :: rest => some (rest.foldl nearer o)

/-- Modelled from the spec: `SelectionEngine.pick` (§4.4, §8) — the
`Selector` class is not in the provided sources.  `pick x y` resolves a
single-pixel coordinate to the nearest visible object covering that pixel,
or `none` when no object covers it; depth breaks ties among overlapping
objects. -/
def pick (objs : List SceneObject) (x y : Nat) : Option Nat :=
  (nearest (objs.filter (fun o => o.hits x y))).map SceneObject.oid

/-- The triangle polygon of `scripts/v120_on_select.py` line 6. -/
def trianglePolygon : GeometricData :=
  .polygon [(0, 0, 0), (1, 0, 0), (1, 1, 0)]

/-- The capsule of `scripts/v120_on_select.py` line 9 (radius scaled to an
integer; payload values are opaque to the core). -/
def sampleCapsule : GeometricData :=
  .capsule [(0, 0, 0), (0, 0, 1)] 3

/-- A freshly constructed default (`'120'`) app state. -/
def app120 : AppState :=
  App.mkState { surfaceVersion := (2, 1), profile := .compatibility,
                viewClass := .view120 }

/-- Success of the geometry adapter on an input, as a boolean: the variant
is supported and every option key is recognized. -/
def buildOk (d : GeometricData) (k : List (String × OptValue)) : Bool :=
  d.supported && k.all (fun kv => recognizedOptions.contains kv.1)

theorem build_eq_ok (n : Nat) (d : GeometricData) (k : List (String × OptValue))
    (h : buildOk d k = true) :
    Object.build n d k = .ok { oid := n, data := d, options := k, initialized := false } := by
  have hs : d.supported = true := by
    cases hd : d.supported
    · rw [buildOk, hd] at h; simp at h
    · rfl
  have hk : k.all (fun kv => recognizedOptions.contains kv.1) = true := by
    rw [buildOk, hs] at h; simpa using h
  rw [Object.build, if_neg (by simp [hs]), if_pos hk]

/-- C9: if the loaded configuration has no `menubar` entry, or it is empty,
no menubar is created and construction does not fail; likewise a missing or
empty `toolbar` entry creates no toolbar and is not an error. -/
theorem c9_missing_config_sections_are_not_errors :
    initMenubar none = .ok (false, [])
    ∧ initMenubar (some []) = .ok (false, [])
    ∧ initToolbar none = .ok { created := false, actions := [] }
    ∧ initToolbar (some []) = .ok { created := false, actions := [] } :=
  ⟨rfl, rfl, rfl, rfl⟩

/-- C10: for every non-empty toolbar configuration, `init_toolbar` ignores
the items' content (any two non-empty configurations are processed
identically), and the toolbar it builds binds Undo/Redo to `self.undo` and
`self.redo`, attributes the `App` class never defines — so the attribute
access fails. -/
theorem c10_toolbar_accesses_undefined_attributes
    (xs ys : List ToolbarItem) (hx : xs ≠ []) (hy : ys ≠ []) :
    initToolbar (some xs) = initToolbar (some ys)
    ∧ initToolbar (some xs) = .error "AttributeError"
    ∧ appAttributes.contains "undo" = false
    ∧ appAttributes.contains "redo" = false := by
  obtain ⟨x, xs, rfl⟩ := List.exists_cons_of_ne_nil hx
  obtain ⟨y, ys, rfl⟩ := List.exists_cons_of_ne_nil hy
  exact ⟨rfl, rfl, by decide, by decide⟩

/-- Witness for C10 at two concrete non-empty toolbar configurations. -/
theorem c10_witness :
    initToolbar (some [{ payload := "a" }])
      = initToolbar (some [{ payload := "b" }, { payload := "c" }])
    ∧ initToolbar (some [{ payload := "a" }]) = .error "AttributeError"
    ∧ appAttributes.contains "undo" = false
    ∧ appAttributes.contains "redo" = false :=
  c10_toolbar_accesses_undefined_attributes _ _ (by decide) (by decide)

/-- C3: when building the renderable wrapper fails, `add` propagates the
error (the build call is the first statement of `App.add`) and leaves both
the view's object map and the selector exactly as they were — no partial
insert. -/
theorem c3_failed_build_leaves_state_unchanged
    (s : AppState) (d : GeometricData) (k : List (String × OptValue))
    (e : BuildError) (hb : Object.build s.nextId d k = .error e) :
    (App.add s d k).1 = s
    ∧ (App.add s d k).1.view.objects = s.view.objects
    ∧ (App.add s d k).1.selector = s.selector
    ∧ (App.add s d k).2 = .error e := by
  refine ⟨?_, ?_, ?_, ?_⟩ <;> simp [App.add, hb]

/-- Witness for C3: adding an unsupported geometric variant to a fresh app
raises `UnsupportedGeometryKind` and changes nothing. -/
theorem c3_witness :
    Object.build app120.nextId (.unsupported "nurbs") [] = .error .unsupportedGeometryKind
    ∧ ((App.add app120 (.unsupported "nurbs") []).1 = app120
        ∧ (App.add app120 (.unsupported "nurbs") []).1.view.objects = app120.view.objects
        ∧ (App.add app120 (.unsupported "nurbs") []).1.selector = app120.selector
        ∧ (App.add app120 (.unsupported "nurbs") []).2 = .error .unsupportedGeometryKind) :=
  ⟨rfl, c3_failed_build_leaves_state_unchanged app120 (.unsupported "nurbs") [] _ rfl⟩

/-- C4: for every version outside `{'120', '330'}`, `App.__init__` raises at
its first statement — the event trace is empty, so no surface format,
window, view or rendering context is created and no app state is set up. -/
theorem VERSIONS_lookup_none (v : String) (h1 : v ≠ "120") (h2 : v ≠ "330") :
    VERSIONS.lookup v = none := by
  have hb1 : (v == "120") = false := beq_eq_false_iff_ne.mpr h1
  have hb2 : (v == "330") = false := beq_eq_false_iff_ne.mpr h2
  simp [VERSIONS, List.lookup, hb1, hb2]

theorem c4_unsupported_version_fails_fast
    (v : String) (w h : Nat) (hv : v ≠ "120" ∧ v ≠ "330") :
    App.init v w h = ([], .error "Only these versions are currently supported") := by
  simp [App.init, VERSIONS_lookup_none v hv.1 hv.2]

/-- Witness for C4 at the concrete unsupported version `'450'`. -/
theorem c4_witness :
    ("450" ≠ "120" ∧ "450" ≠ "330")
    ∧ App.init "450" 800 500
        = ([], .error "Only these versions are currently supported") :=
  ⟨by decide, c4_unsupported_version_fails_fast "450" 800 500 (by decide)⟩

theorem build_ok_fields (n : Nat) (d : GeometricData) (k : List (String × OptValue))
    (obj : Object) (hb : Object.build n d k = .ok obj) :
    obj = { oid := n, data := d, options := k, initialized := false } := by
  rw [Object.build] at hb
  split at hb
  · exact absurd hb (by simp)
  · split at hb
    · exact (Except.ok.inj hb).symm
    · exact absurd hb (by simp)

/-- C1 counterexample: on the script's own input (`viewer.add(polygon,
linecolor=(0,0,1))`) the call succeeds and registers an object under
identity `0`, yet the value `App.add` returns is Python `None` — the body
of `App.add` has no `return` statement — so the caller does not receive the
handle of the new object. -/
theorem c1_counterexample :
    (App.add app120 trianglePolygon [("linecolor", .rgb 0 0 1)]).2 = .ok none
    ∧ registryIds (App.add app120 trianglePolygon [("linecolor", .rgb 0 0 1)]).1 = [0] :=
  ⟨rfl, rfl⟩

/-- C1 (amended): for every supported geometric input and valid options,
`add` registers the new renderable object in the view's object map and in
the selector under a fresh identity, but returns `None` rather than the
handle; the handle is not communicated through the return value. -/
theorem c1_add_registers_but_returns_none
    (s : AppState) (d : GeometricData) (k : List (String × OptValue)) (obj : Object)
    (hb : Object.build s.nextId d k = .ok obj) :
    registryIds (App.add s d k).1 = registryIds s ++ [s.nextId]
    ∧ (App.add s d k).1.selector.entries = s.selector.entries ++ [s.nextId]
    ∧ (App.add s d k).2 = .ok none := by
  have hobj := build_ok_fields _ _ _ _ hb
  refine ⟨?_, ?_, ?_⟩ <;> simp [App.add, hb, registryIds, hobj]

/-- Witness for the amended C1 at the script's polygon input. -/
theorem c1_witness :
    Object.build app120.nextId trianglePolygon [("linecolor", OptValue.rgb 0 0 1)]
      = .ok { oid := 0, data := trianglePolygon,
              options := [("linecolor", OptValue.rgb 0 0 1)], initialized := false }
    ∧ (registryIds (App.add app120 trianglePolygon [("linecolor", OptValue.rgb 0 0 1)]).1
          = registryIds app120 ++ [app120.nextId]
        ∧ (App.add app120 trianglePolygon [("linecolor", OptValue.rgb 0 0 1)]).1.selector.entries
          = app120.selector.entries ++ [app120.nextId]
        ∧ (App.add app120 trianglePolygon [("linecolor", OptValue.rgb 0 0 1)]).2 = .ok none) :=
  ⟨rfl, c1_add_registers_but_returns_none app120 trianglePolygon _ _ rfl⟩

/-- C2: a freshly built object is uninitialized; `add` appends it with the
GPU-initialized flag set exactly when the view's rendering context is valid
at call time (`if self.view.isValid(): obj.init()`); when the context is not
valid the new entry stays uninitialized after `add`, and only the first
drawn frame initializes every registered object. -/
theorem c2_gpu_init_timing
    (s : AppState) (d : GeometricData) (k : List (String × OptValue)) (obj : Object)
    (hb : Object.build s.nextId d k = .ok obj) :
    obj.initialized = false
    ∧ (App.add s d k).1.view.objects
        = s.view.objects ++ [{ obj with initialized := s.view.contextValid }]
    ∧ (s.view.contextValid = false →
        (App.add s d k).1.view.objects.map Object.initialized
          = s.view.objects.map Object.initialized ++ [false])
    ∧ (∀ o ∈ (View.drawFrame (App.add s d k).1).view.objects, o.initialized = true) := by
  have hobj := build_ok_fields _ _ _ _ hb
  refine ⟨by rw [hobj], by simp [App.add, hb], ?_, ?_⟩
  · intro hcv
    simp [App.add, hb, hcv]
  · intro o ho
    rw [View.drawFrame] at ho
    obtain ⟨p, _, rfl⟩ := List.mem_map.mp ho
    rfl

/-- Witness for C2: adding the script's polygon before the first frame
leaves it uninitialized, and the first drawn frame initializes it; the same
theorem applied to a state whose context is already valid shows the
immediate-initialization branch. -/
theorem c2_witness :
    Object.build app120.nextId trianglePolygon []
      = .ok { oid := 0, data := trianglePolygon, options := [], initialized := false }
    ∧ ((App.add app120 trianglePolygon []).1.view.objects
        = app120.view.objects
          ++ [{ oid := 0, data := trianglePolygon, options := [],
                initialized := app120.view.contextValid }])
    ∧ (app120.view.contextValid = false →
        (App.add app120 trianglePolygon []).1.view.objects.map Object.initialized
          = app120.view.objects.map Object.initialized ++ [false])
    ∧ (∀ o ∈ (View.drawFrame (App.add app120 trianglePolygon []).1).view.objects,
        o.initialized = true) := by
  have h := c2_gpu_init_timing app120 trianglePolygon [] _ rfl
  exact ⟨rfl, h.2.1, h.2.2.1, h.2.2.2⟩

/-- C5: the rendering profile is chosen exactly once, at construction, from
the closed two-element enumeration: `'120'` selects `View120` with surface
version `(2, 1)` and the compatibility profile, `'330'` selects `View330`
with surface version `(3, 3)` and the core profile; every successful
construction is one of those two, and `add` never changes the choice. -/
theorem c5_profile_chosen_once_from_closed_enumeration (w h : Nat) :
    App.init "120" w h
      = (constructionEvents .view120 w h,
         .ok { surfaceVersion := (2, 1), profile := .compatibility, viewClass := .view120 })
    ∧ App.init "330" w h
      = (constructionEvents .view330 w h,
         .ok { surfaceVersion := (3, 3), profile := .core, viewClass := .view330 })
    ∧ (∀ v evs c, App.init v w h = (evs, .ok c) →
        c = { surfaceVersion := (2, 1), profile := .compatibility, viewClass := .view120 }
        ∨ c = { surfaceVersion := (3, 3), profile := .core, viewClass := .view330 })
    ∧ (∀ s d k, ((App.add s d k).1).construction = s.construction) := by
  refine ⟨rfl, rfl, ?_, ?_⟩
  · intro v evs c hinit
    by_cases h120 : v = "120"
    · subst h120
      have h1 : App.init "120" w h
          = (constructionEvents .view120 w h,
             .ok { surfaceVersion := (2, 1), profile := Profile.compatibility,
                   viewClass := ViewClass.view120 }) := rfl
      rw [h1] at hinit
      obtain ⟨-, h2⟩ := Prod.mk.injEq _ _ _ _ ▸ hinit
      exact Or.inl (Except.ok.inj h2.symm)
    · by_cases h330 : v = "330"
      · subst h330
        have h1 : App.init "330" w h
            = (constructionEvents .view330 w h,
               .ok { surfaceVersion := (3, 3), profile := Profile.core,
                     viewClass := ViewClass.view330 }) := rfl
        rw [h1] at hinit
        obtain ⟨-, h2⟩ := Prod.mk.injEq _ _ _ _ ▸ hinit
        exact Or.inr (Except.ok.inj h2.symm)
      · rw [App.init, VERSIONS_lookup_none v h120 h330] at hinit
        simp at hinit
  · intro s d k
    cases hb : Object.build s.nextId d k <;> simp [App.add, hb]

/-- Witness for C5: both concrete constructions, the closed-enumeration
consequence at `'120'`, and preservation of the construction by a concrete
`add`. -/
theorem c5_witness :
    App.init "120" 800 500
      = (constructionEvents .view120 800 500,
         .ok { surfaceVersion := (2, 1), profile := .compatibility, viewClass := .view120 })
    ∧ App.init "330" 800 500
      = (constructionEvents .view330 800 500,
         .ok { surfaceVersion := (3, 3), profile := .core, viewClass := .view330 })
    ∧ (({ surfaceVersion := (2, 1), profile := Profile.compatibility,
          viewClass := ViewClass.view120 } : AppConstruction)
          = { surfaceVersion := (2, 1), profile := .compatibility, viewClass := .view120 }
        ∨ ({ surfaceVersion := (2, 1), profile := Profile.compatibility,
             viewClass := ViewClass.view120 } : AppConstruction)
          = { surfaceVersion := (3, 3), profile := .core, viewClass := .view330 })
    ∧ (App.add app120 trianglePolygon []).1.construction = app120.construction := by
  have h := c5_profile_chosen_once_from_closed_enumeration 800 500
  exact ⟨h.1, h.2.1, h.2.2.1 "120" _ _ h.1, h.2.2.2 app120 trianglePolygon []⟩

theorem add_ok_ids (s : AppState) (d : GeometricData) (k : List (String × OptValue))
    (h : buildOk d k = true) :
    registryIds (App.add s d k).1 = registryIds s ++ [s.nextId]
    ∧ (App.add s d k).1.nextId = s.nextId + 1 := by
  have hb := build_eq_ok s.nextId d k h
  constructor <;> simp [App.add, hb, registryIds]

theorem addAll_ids (inputs : List (GeometricData × List (String × OptValue))) :
    ∀ s : AppState, (∀ i ∈ inputs, buildOk i.1 i.2 = true) →
      registryIds (App.addAll s inputs) = registryIds s ++ List.range' s.nextId inputs.length
      ∧ (App.addAll s inputs).nextId = s.nextId + inputs.length := by
  induction inputs with
  | nil => intro s _; simp [App.addAll]
  | cons i rest ih =>
      intro s hok
      have hstep : App.addAll s (i :: rest) = App.addAll (App.add s i.1 i.2).1 rest := by
        simp [App.addAll]
      have h1 := add_ok_ids s i.1 i.2 (hok i (by simp))
      have h2 := ih (App.add s i.1 i.2).1 (fun j hj => hok j (by simp [hj]))
      rw [hstep]
      constructor
      · rw [h2.1, h1.1, h1.2, List.length_cons, List.range'_succ, List.append_assoc]
        rfl
      · rw [h2.2, h1.2, List.length_cons]
        omega

/-- C6: object identity is independent of the structure of the geometric
data — every successful `add` creates a distinct registry entry (the
registry is keyed by the freshly built wrapper instance, never by the
geometry), so after `n` successful adds from a fresh app the registry holds
exactly `n` entries with pairwise-distinct identities `0, …, n-1`, even when
some inputs are identical values. -/
theorem c6_identity_independent_of_structure
    (inputs : List (GeometricData × List (String × OptValue)))
    (hok : ∀ i ∈ inputs, buildOk i.1 i.2 = true) :
    registryIds (App.addAll app120 inputs) = List.range inputs.length
    ∧ (registryIds (App.addAll app120 inputs)).Nodup
    ∧ (registryIds (App.addAll app120 inputs)).length = inputs.length := by
  have h := (addAll_ids inputs app120 hok).1
  have hr : registryIds (App.addAll app120 inputs) = List.range inputs.length := by
    rw [h, List.range_eq_range']
    rfl
  exact ⟨hr, hr ▸ List.nodup_range _, by rw [hr, List.length_range]⟩

/-- Witness for C6: adding the same polygon value twice (identical geometry)
followed by the script's capsule yields three registry entries with the
distinct identities `[0, 1, 2]`. -/
theorem c6_witness :
    (∀ i ∈ [(trianglePolygon, ([] : List (String × OptValue))),
            (trianglePolygon, []), (sampleCapsule, [])], buildOk i.1 i.2 = true)
    ∧ registryIds (App.addAll app120
        [(trianglePolygon, []), (trianglePolygon, []), (sampleCapsule, [])]) = [0, 1, 2]
    ∧ (registryIds (App.addAll app120
        [(trianglePolygon, []), (trianglePolygon, []), (sampleCapsule, [])])).Nodup
    ∧ (registryIds (App.addAll app120
        [(trianglePolygon, []), (trianglePolygon, []), (sampleCapsule, [])])).length = 3 := by
  have h := c6_identity_independent_of_structure
    [(trianglePolygon, []), (trianglePolygon, []), (sampleCapsule, [])] (by decide)
  exact ⟨by decide, h.1, h.2.1, h.2.2⟩

theorem except_bind_ok {a b : Type} (x : b) (f : b → Except String a) :
    (Except.ok x : Except String b) >>= f = f x := rfl

theorem except_bind_error {a b : Type} (e : String) (f : b → Except String a) :
    (Except.error e : Except String b) >>= f = Except.error e := rfl

theorem except_pure {a : Type} (x : a) : (pure x : Except String a) = Except.ok x := rfl

theorem addMenubarItems_spec (l : List MenuItem) :
    (hasUnknownItem l = true ∧ addMenubarItems l = .error "NotImplementedError")
    ∨ (hasUnknownItem l = false ∧ ∃ es, addMenubarItems l = .ok es) := by
  induction l using addMenubarItems.induct with
  | case1 => exact Or.inr ⟨by simp [hasUnknownItem], [], by simp [addMenubarItems]⟩
  | case2 rest ih =>
      rcases ih with ⟨hu, he⟩ | ⟨hu, es, he⟩
      · exact Or.inl ⟨by simp [hasUnknownItem, hu],
          by simp [addMenubarItems, he, except_bind_error]⟩
      · exact Or.inr ⟨by simp [hasUnknownItem, hu],
          ⟨.addedSeparator :: es,
           by simp [addMenubarItems, he, except_bind_ok, except_pure]⟩⟩
  | case3 t rest ih =>
      rcases ih with ⟨hu, he⟩ | ⟨hu, es, he⟩
      · exact Or.inl ⟨by simp [hasUnknownItem, hu],
          by simp [addMenubarItems, he, except_bind_error]⟩
      · exact Or.inr ⟨by simp [hasUnknownItem, hu],
          ⟨.addedMenu t :: es,
           by simp [addMenubarItems, he, except_bind_ok, except_pure]⟩⟩
  | case4 t sub rest ihSub ihRest =>
      rcases ihSub with ⟨huS, heS⟩ | ⟨huS, esS, heS⟩
      · exact Or.inl ⟨by simp [hasUnknownItem, huS],
          by simp [addMenubarItems, heS, except_bind_error]⟩
      · rcases ihRest with ⟨huR, heR⟩ | ⟨huR, esR, heR⟩
        · exact Or.inl ⟨by simp [hasUnknownItem, huS, huR],
            by simp [addMenubarItems, heS, heR, except_bind_ok, except_bind_error]⟩
        · exact Or.inr ⟨by simp [hasUnknownItem, huS, huR],
            ⟨.addedMenu t :: (esS ++ esR),
             by simp [addMenubarItems, heS, heR, except_bind_ok, except_pure]⟩⟩
  | case5 children rest ih =>
      rcases ih with ⟨hu, he⟩ | ⟨hu, es, he⟩
      · exact Or.inl ⟨by simp [hasUnknownItem, hu],
          by simp [addMenubarItems, he, except_bind_error]⟩
      · exact Or.inr ⟨by simp [hasUnknownItem, hu],
          ⟨.radioGroupCreated true ::
            (children.map (fun c => MenuEffect.boundAction c.text c.actionName true c.checked) ++ es),
           by simp [addMenubarItems, he, except_bind_ok, except_pure]⟩⟩
  | case6 a rest ih =>
      rcases ih with ⟨hu, he⟩ | ⟨hu, es, he⟩
      · exact Or.inl ⟨by simp [hasUnknownItem, hu],
          by simp [addMenubarItems, he, except_bind_error]⟩
      · exact Or.inr ⟨by simp [hasUnknownItem, hu],
          ⟨addActionEffect a.text a.actionName :: es,
           by simp [addMenubarItems, he, except_bind_ok, except_pure]⟩⟩
  | case7 tag rest =>
      exact Or.inl ⟨by simp [hasUnknownItem], by simp [addMenubarItems]⟩

/-- C7: menubar configuration processing handles exactly the item types
separator, menu, radio and action — separators become separators, menus
recurse into their children, radio children become mutually exclusive
checkable actions, plain actions are bound by name — and any item of
another type makes menubar construction raise `NotImplementedError` at
configuration-load time instead of being silently skipped. -/
theorem c7_menubar_item_type_handling (items : List MenuItem) :
    (hasUnknownItem items = true → addMenubarItems items = .error "NotImplementedError")
    ∧ (hasUnknownItem items = false → ∃ es, addMenubarItems items = .ok es)
    ∧ (∀ rest es, addMenubarItems rest = .ok es →
        addMenubarItems (.separator :: rest) = .ok (.addedSeparator :: es))
    ∧ (∀ t sub rest subEs es, addMenubarItems sub = .ok subEs →
        addMenubarItems rest = .ok es →
        addMenubarItems (.menu t (some sub) :: rest)
          = .ok (.addedMenu t :: (subEs ++ es)))
    ∧ (∀ children rest es, addMenubarItems rest = .ok es →
        addMenubarItems (.radio children :: rest)
          = .ok (.radioGroupCreated true ::
              (children.map (fun c => MenuEffect.boundAction c.text c.actionName true c.checked)
                ++ es)))
    ∧ (∀ a rest es, addMenubarItems rest = .ok es →
        addMenubarItems (.action a :: rest)
          = .ok (addActionEffect a.text a.actionName :: es)) := by
  refine ⟨?_, ?_, ?_, ?_, ?_, ?_⟩
  · intro hu
    rcases addMenubarItems_spec items with ⟨-, he⟩ | ⟨hu2, -⟩
    · exact he
    · rw [hu] at hu2; exact absurd hu2 (by simp)
  · intro hu
    rcases addMenubarItems_spec items with ⟨hu2, -⟩ | ⟨-, es, he⟩
    · rw [hu] at hu2; exact absurd hu2 (by simp)
    · exact ⟨es, he⟩
  · intro rest es he
    simp [addMenubarItems, he, except_bind_ok, except_pure]
  · intro t sub rest subEs es heS heR
    simp [addMenubarItems, heS, heR, except_bind_ok, except_pure]
  · intro children rest es he
    simp [addMenubarItems, he, except_bind_ok, except_pure]
  · intro a rest es he
    simp [addMenubarItems, he, except_bind_ok, except_pure]

/-- Witness for C7: a concrete unknown item type (`'toggle'`) makes menubar
construction fail with `NotImplementedError`, while a concrete separator
item is processed as a separator. -/
theorem c7_witness :
    hasUnknownItem [MenuItem.other "toggle"] = true
    ∧ addMenubarItems [MenuItem.other "toggle"] = .error "NotImplementedError"
    ∧ addMenubarItems [MenuItem.separator] = .ok [MenuEffect.addedSeparator] := by
  have hu : hasUnknownItem [MenuItem.other "toggle"] = true := by
    simp [hasUnknownItem]
  have hnil : addMenubarItems ([] : List MenuItem) = .ok [] := by
    simp [addMenubarItems]
  have h := c7_menubar_item_type_handling [MenuItem.other "toggle"]
  exact ⟨hu, h.1 hu, h.2.2.1 [] [] hnil⟩

theorem foldl_nearer_mem (t : List SceneObject) :
    ∀ o : SceneObject, t.foldl nearer o ∈ o :: t := by
  induction t with
  | nil => intro o; simp
  | cons b t ih =>
      intro o
      have h := ih (nearer o b)
      simp only [List.foldl_cons]
      rcases List.mem_cons.mp h with h1 | h1
      · rw [h1]
        by_cases hd : b.depth < o.depth
        · simp [nearer, hd]
        · simp [nearer, hd]
      · simp only [List.mem_cons]
        right; right; exact h1

theorem foldl_nearer_le (t : List SceneObject) :
    ∀ o x : SceneObject, x ∈ o :: t → (t.foldl nearer o).depth ≤ x.depth := by
  induction t with
  | nil =>
      intro o x hx
      simp at hx
      subst hx
      simp
  | cons b t ih =>
      intro o x hx
      have hno : (nearer o b).depth ≤ o.depth ∧ (nearer o b).depth ≤ b.depth := by
        unfold nearer; split <;> omega
      simp only [List.foldl_cons]
      rcases List.mem_cons.mp hx with rfl | hx1
      · exact le_trans (ih (nearer x b) (nearer x b) (List.mem_cons_self _ _)) hno.1
      · rcases List.mem_cons.mp hx1 with rfl | hx2
        · exact le_trans (ih (nearer o x) (nearer o x) (List.mem_cons_self _ _)) hno.2
        · exact ih (nearer o b) x (List.mem_cons_of_mem _ hx2)

theorem nearest_spec (l : List SceneObject) (m : SceneObject)
    (h : nearest l = some m) :
    m ∈ l ∧ ∀ x ∈ l, m.depth ≤ x.depth := by
  cases l with
  | nil => simp [nearest] at h
  | cons o t =>
      simp only [nearest, Option.some.injEq] at h
      subst h
      exact ⟨foldl_nearer_mem t o, fun x hx => foldl_nearer_le t o x hx⟩

/-- C8: `pick (x, y)` returns the single visible object covering the pixel
when there is exactly one; returns `none` (explicit absence, not a failure)
when no visible object covers the pixel; and when several visible objects
overlap the pixel it returns the one strictly nearest to the camera. -/
theorem c8_pick_semantics (objs : List SceneObject) (x y : Nat) :
    (objs.filter (fun o => o.hits x y) = [] → pick objs x y = none)
    ∧ (∀ a, objs.filter (fun o => o.hits x y) = [a] → pick objs x y = some a.oid)
    ∧ (∀ a, a ∈ objs.filter (fun o => o.hits x y) →
        (∀ b ∈ objs.filter (fun o => o.hits x y), b ≠ a → a.depth < b.depth) →
        pick objs x y = some a.oid) := by
  refine ⟨?_, ?_, ?_⟩
  · intro h
    simp [pick, h, nearest]
  · intro a h
    simp [pick, h, nearest]
  · intro a ha hmin
    cases hl : nearest (objs.filter (fun o => o.hits x y)) with
    | none =>
        cases hf : objs.filter (fun o => o.hits x y) with
        | nil => rw [hf] at ha; exact absurd ha (by simp)
        | cons o t => rw [hf] at hl; simp [nearest] at hl
    | some m =>
        obtain ⟨hmem, hle⟩ := nearest_spec _ _ hl
        by_cases hma : m = a
        · subst hma
          simp [pick, hl]
        · have h1 := hmin m hmem hma
          have h2 := hle a ha
          omega

/-- A visible object covering pixel `(5, 5)` at depth 2. -/
def objA : SceneObject := { oid := 1, visible := true, coveredPixels := [(5, 5)], depth := 2 }

/-- A visible object covering pixels `(5, 5)` and `(7, 7)` at depth 10. -/
def objB : SceneObject :=
  { oid := 2, visible := true, coveredPixels := [(5, 5), (7, 7)], depth := 10 }

/-- An invisible object; it must never be picked. -/
def objC : SceneObject := { oid := 3, visible := false, coveredPixels := [(9, 9)], depth := 0 }

/-- Witness for C8 on a concrete scene: an empty pixel picks nothing, a
pixel covered only by `objB` picks `objB`, and the pixel where `objA`
(nearer) and `objB` (farther) overlap picks `objA`. -/
theorem c8_witness :
    ([objA, objB, objC].filter (fun o => o.hits 0 0) = []
      ∧ pick [objA, objB, objC] 0 0 = none)
    ∧ ([objA, objB, objC].filter (fun o => o.hits 7 7) = [objB]
      ∧ pick [objA, objB, objC] 7 7 = some 2)
    ∧ (objA ∈ [objA, objB, objC].filter (fun o => o.hits 5 5)
      ∧ pick [objA, objB, objC] 5 5 = some 1) := by
  have h00 := (c8_pick_semantics [objA, objB, objC] 0 0).1 (by decide)
  have h77 := (c8_pick_semantics [objA, objB, objC] 7 7).2.1 objB (by decide)
  have h55 := (c8_pick_semantics [objA, objB, objC] 5 5).2.2 objA (by decide) (by decide)
  exact ⟨⟨by decide, h00⟩, ⟨by decide, h77⟩, ⟨by decide, h55⟩⟩

end CompasView2
